import Mathlib

/-!
Shallow embedding of the sale-deed batch pipeline
(backend/app/workers/pipeline_processor_v2.py,
 backend/app/services/pdf_processor_v2.py,
 backend/app/workers/vision_batch_processor.py,
 backend/app/utils/file_handler.py, backend/app/config.py).

Modelling conventions:
- Python status strings "success" / "failed" / "stopped" become the
  inductive type Status.
- Numeric fee payloads (Python floats that the claims only compare for
  positivity and presence) are modelled as Int; the float-formatting
  branch in the source collapses to toString for whole numbers.
- External collaborators (pdfplumber, Tesseract OCR, LLM, vision model,
  filesystem operations) are modelled as environment fields carrying the
  outcome the collaborator would return, including an error alternative
  where the source wraps the call in try/except.
- File relocations are recorded as explicit effect values; a stage
  function that contains no move call produces an empty effect list.
-/

namespace SaleDeed

/-- Terminal-or-continuable status carried by every stage result
(strings "success" / "failed" / "stopped" in the source). -/
inductive Status where
  | success
  | failed
  | stopped
deriving DecidableEq, Repr

/-- config.py: STAGE2_QUEUE_SIZE = 2  (max documents waiting between OCR
and LLM stages, per the config comment). -/
def STAGE2_QUEUE_SIZE : Nat := 2

/-- config.py: MAX_OCR_WORKERS = 5. -/
def MAX_OCR_WORKERS : Nat := 5

/-- config.py: MAX_LLM_WORKERS = 5. -/
def MAX_LLM_WORKERS : Nat := 5

/-- config.py: PROCESSED_DIR (destination for successfully processed PDFs). -/
def PROCESSED_DIR : String := "data/processed"

/-- config.py: FAILED_DIR (quarantine destination for failed PDFs). -/
def FAILED_DIR : String := "data/failed"

/-- config.py: VISION_FAILED_DIR (dead-letter destination of the vision
resolver pipeline). -/
def VISION_FAILED_DIR : String := "data/vision_failed"

/-- Python str.split with a non-empty separator, on character lists:
split at every non-overlapping occurrence left to right (structural fuel
recursion so the kernel can evaluate it; fuel above the list length
never runs out). -/
def splitChars (sep : List Char) : Nat → List Char → List Char →
    List (List Char)
  | 0, l, acc => [acc.reverse ++ l]
  | fuel + 1, l, acc =>
    match l with
    | [] => [acc.reverse]
    | c :: rest =>
      if sep ≠ [] ∧ sep.isPrefixOf (c :: rest) then
        acc.reverse :: splitChars sep fuel ((c :: rest).drop sep.length) []
      else
        splitChars sep fuel rest (c :: acc)

/-- Python str.split with a given separator. -/
def pySplit (s sep : String) : List (List Char) :=
  splitChars sep.data (s.data.length + 1) s.data []

/-- Python pathlib Path(name).stem: the final path component without its
last suffix. -/
def stemOf (name : String) : String :=
  let parts := pySplit name "."
  match parts with
  | [] => name
  | [_] => name
  | [[], _] => name
  | _ => String.mk (List.intercalate ['.'] parts.dropLast)

/-- FileHandler.extract_document_id: stem of the filename, with a
trailing "_ocred" removed when present. -/
def extractDocumentId (pdfFilename : String) : String :=
  let filename := stemOf pdfFilename
  if List.isSuffixOf "_ocred".data filename.data then
    String.mk (filename.data.take (filename.data.length - 6))
  else filename

/-- ValidationService.calculate_guidance_value: registration_fee * 100
(round to 2 decimals is exact on the integer model). -/
def calculateGuidanceValue (registrationFee : Int) : Int :=
  registrationFee * 100

/-- FileHandler.move_file: returns the new destination path on success
and None when the underlying filesystem operation raises (the except
branch swallows the error).  The fs argument is the outcome of the
mkdir+shutil.move filesystem action. -/
def moveFile (source : String) (destinationDir : String)
    (filename : Option String) (fs : Except String Unit) : Option String :=
  match fs with
  | .ok _ =>
      let destFilename := filename.getD source
      some (destinationDir ++ "/" ++ destFilename)
  | .error _ => none

/-- One recorded relocation attempt of a backing file
(a FileHandler.move_file call: source, destination directory, and the
value move_file returned, which every caller in the source discards). -/
structure FileMove where
  src : String
  destDir : String
  returned : Option String
deriving DecidableEq, Repr

/-- workers/pipeline_processor_v2.py Stage1Result dataclass. -/
structure Stage1Result where
  pdfPath : String
  documentId : String
  registrationFee : Option Int
  newOcrRegFee : Option Int
  ocrText : String
  status : Status
  error : Option String := none
deriving DecidableEq, Repr

/-- Environment of PDFProcessorV2.process_stage1_ocr: the value of the
running flag at each of the three stop checks, and the outcomes of the
external collaborator calls the stage makes. -/
structure Stage1Env where
  running1 : Bool
  running2 : Bool
  running3 : Bool
  regFeeExtract : Except String (Option Int)
  ocrFullText : Except String String
  ocrRegFeeEnabled : Bool
  ocrRegFeeExtract : Option Int
deriving Repr

/-- Output of a stage-1 call: the Stage1Result plus the file relocations
the call performed. -/
structure Stage1Out where
  result : Stage1Result
  moves : List FileMove
deriving DecidableEq, Repr

/-- Stage-1 Stopped exit (ProcessingStoppedException handler): result
with status stopped; no file operation occurs. -/
def stage1Stopped (pdfPath documentId msg : String) : Stage1Out :=
  ⟨⟨pdfPath, documentId, none, none, "", Status.stopped, some msg⟩, []⟩

/-- Stage-1 Failed exit (generic except handler): result with status
failed carrying the error text; no file operation occurs. -/
def stage1Failed (pdfPath documentId err : String) : Stage1Out :=
  ⟨⟨pdfPath, documentId, none, none, "", Status.failed, some err⟩, []⟩

/-- PDFProcessorV2.process_stage1_ocr.  pdfPath doubles as the file name
(the run enumerates one flat intake directory).  Mirrors the source:
stop check, pdfplumber fee extraction, stop check, OCR, minimum-length
validation, stop check, optional OCR-text fee extraction; the
ProcessingStoppedException handler returns status stopped, the generic
except handler returns status failed.  No branch moves the file. -/
def processStage1Ocr (env : Stage1Env) (pdfPath : String) : Stage1Out :=
  let documentId := extractDocumentId pdfPath
  if !env.running1 then stage1Stopped pdfPath documentId "Stopped before Stage 1"
  else
    match env.regFeeExtract with
    | .error e => stage1Failed pdfPath documentId e
    | .ok registrationFee =>
      if !env.running2 then stage1Stopped pdfPath documentId "Stopped before OCR"
      else
        match env.ocrFullText with
        | .error e => stage1Failed pdfPath documentId e
        | .ok fullOcrText =>
          if fullOcrText.length < 100 then
            stage1Failed pdfPath documentId "OCR returned insufficient text"
          else if !env.running3 then
            stage1Stopped pdfPath documentId "Stopped before OCR fee extraction"
          else
            let newOcrRegFee :=
              if env.ocrRegFeeEnabled then env.ocrRegFeeExtract else none
            ⟨⟨pdfPath, documentId, registrationFee, newOcrRegFee, fullOcrText,
              Status.success, none⟩, []⟩

/-! Persistence model (app/models rows reached through
PDFProcessorV2._save_to_database).  Rows are kept in insertion order, as
SQLAlchemy session.add appends and query(...).first() returns the first
match. -/

/-- models DocumentDetail row (fields _save_to_database touches). -/
structure DocumentDetail where
  documentId : String
  transactionDate : Option String
  registrationOffice : Option String
  updatedAt : Nat
deriving DecidableEq, Repr

/-- models PropertyDetail row (fields _save_to_database touches). -/
structure PropertyDetail where
  documentId : String
  scheduleBArea : Option String
  scheduleCPropertyName : Option String
  scheduleCPropertyAddress : Option String
  scheduleCPropertyArea : Option String
  paidInCashMode : Option String
  pincode : Option String
  state : Option String
  saleConsideration : Option String
  stampDutyFee : Option String
  registrationFee : Option String
  newOcrRegFee : Option String
  guidanceValue : Option String
deriving DecidableEq, Repr

/-- models BuyerDetail row. -/
structure BuyerDetail where
  documentId : String
  name : Option String
  gender : Option String
  aadhaarNumber : Option String
  panCardNumber : Option String
  address : Option String
  pincode : Option String
  state : Option String
  phoneNumber : Option String
  secondaryPhoneNumber : Option String
  email : Option String
deriving DecidableEq, Repr

/-- models SellerDetail row. -/
structure SellerDetail where
  documentId : String
  name : Option String
  gender : Option String
  aadhaarNumber : Option String
  panCardNumber : Option String
  address : Option String
  pincode : Option String
  state : Option String
  phoneNumber : Option String
  secondaryPhoneNumber : Option String
  email : Option String
  propertyShare : Option String
deriving DecidableEq, Repr

/-- The four tables _save_to_database and the vision resolver touch. -/
structure Database where
  docs : List DocumentDetail
  props : List PropertyDetail
  buyers : List BuyerDetail
  sellers : List SellerDetail
deriving DecidableEq, Repr

/-- document_details section of the LLM extraction payload. -/
structure DocData where
  transactionDate : Option String
  registrationOffice : Option String
deriving DecidableEq, Repr

/-- property_details section of the LLM extraction payload. -/
structure PropData where
  scheduleBArea : Option String
  scheduleCPropertyName : Option String
  scheduleCPropertyAddress : Option String
  scheduleCPropertyArea : Option String
  paidInCashMode : Option String
  pincode : Option String
  state : Option String
  saleConsideration : Option String
  stampDutyFee : Option String
  registrationFee : Option Int
  guidanceValue : Option Int
deriving DecidableEq, Repr

/-- One buyer entry of the extraction payload. -/
structure BuyerData where
  name : Option String
  gender : Option String
  aadhaarNumber : Option String
  panCardNumber : Option String
  address : Option String
  pincode : Option String
  state : Option String
  phoneNumber : Option String
  secondaryPhoneNumber : Option String
  email : Option String
deriving DecidableEq, Repr

/-- One seller entry of the extraction payload. -/
structure SellerData where
  name : Option String
  gender : Option String
  aadhaarNumber : Option String
  panCardNumber : Option String
  address : Option String
  pincode : Option String
  state : Option String
  phoneNumber : Option String
  secondaryPhoneNumber : Option String
  email : Option String
  propertyShare : Option String
deriving DecidableEq, Repr

/-- Structured data extracted by the LLM, after validation/cleaning. -/
structure ExtractedData where
  documentDetails : DocData
  propertyDetails : PropData
  buyerDetails : List BuyerData
  sellerDetails : List SellerData
deriving DecidableEq, Repr

/-- Update the first element satisfying p (SQLAlchemy query(...).first()
followed by in-place attribute assignment). -/
def updateFirst (p : α → Bool) (f : α → α) : List α → List α
  | [] => []
  | x :: xs => if p x then f x :: xs else x :: updateFirst p f xs

/-- Numeric value stored as a string column: the source prints floats as
int-like strings when whole, which on the Int model is toString. -/
def formatFeeString (v : Option Int) : Option String :=
  v.map toString

/-- Attribute assignments performed on the (new or found) PropertyDetail
row in _save_to_database. -/
def assignPropertyFields (propData : PropData) (newOcrRegFee : Option Int)
    (p : PropertyDetail) : PropertyDetail :=
  { p with
    scheduleBArea := propData.scheduleBArea
    scheduleCPropertyName := propData.scheduleCPropertyName
    scheduleCPropertyAddress := propData.scheduleCPropertyAddress
    scheduleCPropertyArea := propData.scheduleCPropertyArea
    paidInCashMode := propData.paidInCashMode
    pincode := propData.pincode
    state := propData.state
    saleConsideration := propData.saleConsideration
    stampDutyFee := propData.stampDutyFee
    registrationFee := formatFeeString propData.registrationFee
    newOcrRegFee := formatFeeString newOcrRegFee
    guidanceValue := formatFeeString propData.guidanceValue }

/-- Row built for each entry of data buyer_details. -/
def mkBuyerRow (documentId : String) (b : BuyerData) : BuyerDetail :=
  ⟨documentId, b.name, b.gender, b.aadhaarNumber, b.panCardNumber,
   b.address, b.pincode, b.state, b.phoneNumber, b.secondaryPhoneNumber,
   b.email⟩

/-- Row built for each entry of data seller_details. -/
def mkSellerRow (documentId : String) (s : SellerData) : SellerDetail :=
  ⟨documentId, s.name, s.gender, s.aadhaarNumber, s.panCardNumber,
   s.address, s.pincode, s.state, s.phoneNumber, s.secondaryPhoneNumber,
   s.email, s.propertyShare⟩

/-- PDFProcessorV2._save_to_database: upsert the DocumentDetail row
(update the first match in place, else append a new row), upsert the
PropertyDetail row assigning all extracted fields, then delete every
BuyerDetail/SellerDetail row of this document_id and reinsert the rows of
the current payload.  now models datetime.utcnow() for updated_at. -/
def saveToDatabase (documentId : String) (data : ExtractedData)
    (newOcrRegFee : Option Int) (now : Nat) (db : Database) : Database :=
  let docData := data.documentDetails
  let docs :=
    if (db.docs.find? (fun d => d.documentId == documentId)).isSome then
      updateFirst (fun d => d.documentId == documentId)
        (fun d => { d with
          transactionDate := docData.transactionDate
          registrationOffice := docData.registrationOffice
          updatedAt := now }) db.docs
    else
      db.docs ++ [⟨documentId, docData.transactionDate,
                   docData.registrationOffice, 0⟩]
  let propData := data.propertyDetails
  let props :=
    if (db.props.find? (fun p => p.documentId == documentId)).isSome then
      updateFirst (fun p => p.documentId == documentId)
        (assignPropertyFields propData newOcrRegFee) db.props
    else
      db.props ++ [assignPropertyFields propData newOcrRegFee
        ⟨documentId, none, none, none, none, none, none, none, none, none,
         none, none, none⟩]
  let buyers :=
    db.buyers.filter (fun b => !(b.documentId == documentId))
      ++ data.buyerDetails.map (mkBuyerRow documentId)
  let sellers :=
    db.sellers.filter (fun s => !(s.documentId == documentId))
      ++ data.sellerDetails.map (mkSellerRow documentId)
  ⟨docs, props, buyers, sellers⟩

/-! Stage 2: PDFProcessorV2.process_stage2_llm. -/

/-- Result dictionary built by process_stage2_llm (initialised with
status failed and mutated along the way, so a Stopped or Failed exit
keeps the flags set before the exit point). -/
structure Stage2Dict where
  documentId : String
  status : Status
  registrationFee : Option Int
  llmExtracted : Bool
  savedToDb : Bool
  tableDetected : Bool
  error : Option String
deriving DecidableEq, Repr

/-- Environment of process_stage2_llm: the running flag at each of the
four stop checks and the outcomes of the collaborator calls.
validate stands for ValidationService.validate_and_clean_data;
dbCommit is the outcome of the _save_to_database session work
(ok commits the computed row changes, error rolls them back);
moveProcessedFs / moveFailedFs are the filesystem outcomes of the two
FileHandler.move_file calls, whose return value the source discards. -/
structure Stage2Env where
  running1 : Bool
  running2 : Bool
  running3 : Bool
  running4 : Bool
  llm : Except String (Option ExtractedData)
  validate : ExtractedData → ExtractedData
  dbCommit : Except String Unit
  yoloDetected : Bool
  fileExists : Bool
  db : Database
  now : Nat
  moveProcessedFs : Except String Unit
  moveFailedFs : Except String Unit

/-- Output of a stage-2 call: result dictionary, file relocations
attempted, and the database after the call. -/
structure Stage2Out where
  result : Stage2Dict
  moves : List FileMove
  db : Database

/-- Stage-2 Stopped exit (ProcessingStoppedException handler): no file
move, database unchanged. -/
def stage2Stopped (r : Stage2Dict) (msg : String) (db : Database) : Stage2Out :=
  ⟨{ r with status := Status.stopped, error := some msg }, [], db⟩

/-- Stage-2 Failed exit (generic except handler): the source moves the
PDF to FAILED_DIR only when the file still exists; the save was rolled
back, so the database is unchanged. -/
def stage2Failed (env : Stage2Env) (r : Stage2Dict) (pdfPath err : String) :
    Stage2Out :=
  ⟨{ r with status := Status.failed, error := some err },
   if env.fileExists then
     [⟨pdfPath, FAILED_DIR, moveFile pdfPath FAILED_DIR none env.moveFailedFs⟩]
   else [],
   env.db⟩

/-- PDFProcessorV2.process_stage2_llm.  Mirrors the source: stop check,
LLM extraction (raise on falsy payload), stop check, validation plus the
pdfplumber registration-fee override, stop check, database save (inner
try re-raises as "Database save failed: ..."), stop check, conditional
YOLO table detection, then status success and relocation of the PDF to
PROCESSED_DIR. -/
def processStage2Llm (env : Stage2Env) (r1 : Stage1Result) : Stage2Out :=
  let base : Stage2Dict :=
    ⟨r1.documentId, Status.failed, r1.registrationFee, false, false, false, none⟩
  if !env.running1 then stage2Stopped base "Stopped before LLM" env.db
  else
    match env.llm with
    | .error e => stage2Failed env base r1.pdfPath e
    | .ok none => stage2Failed env base r1.pdfPath "LLM failed to extract structured data"
    | .ok (some extractedData) =>
      let r := { base with llmExtracted := true }
      if !env.running2 then stage2Stopped r "Stopped before validation" env.db
      else
        let cleanedData := env.validate extractedData
        let cleanedData :=
          match r1.registrationFee with
          | some fee =>
            { cleanedData with propertyDetails :=
              { cleanedData.propertyDetails with
                registrationFee := some fee
                guidanceValue := some (calculateGuidanceValue fee) } }
          | none => cleanedData
        if !env.running3 then stage2Stopped r "Stopped before DB save" env.db
        else
          match env.dbCommit with
          | .error e =>
            stage2Failed env r r1.pdfPath ("Database save failed: " ++ e)
          | .ok _ =>
            let savedDb := saveToDatabase r1.documentId cleanedData
              r1.newOcrRegFee env.now env.db
            let r := { r with savedToDb := true }
            if !env.running4 then stage2Stopped r "Stopped before YOLO" savedDb
            else
              let r :=
                if r1.registrationFee.isNone then
                  { r with tableDetected := env.yoloDetected }
                else r
              ⟨{ r with status := Status.success },
               [⟨r1.pdfPath, PROCESSED_DIR,
                 moveFile r1.pdfPath PROCESSED_DIR none env.moveProcessedFs⟩],
               savedDb⟩

/-! Orchestrator: PipelineBatchProcessor.process_batch, modelled as a
transition system over the interleavings the threaded code can exhibit.
The stats dictionary keeps the counter fields the claims refer to
(total, processed, successful, failed, stopped, in_queue, llm_active);
the gauge fields ocr_active and current_file are never read by any claim
and are omitted.  The bounded stage2_queue the source allocates on entry
is carried as stage2QueueLen: no statement of process_batch ever puts
into or gets from it, so no transition changes this field. -/

/-- The stats counters guarded by the processor lock. -/
structure RunStats where
  total : Nat
  processed : Nat
  successful : Nat
  failed : Nat
  stopped : Nat
  inQueue : Nat
  llmActive : Nat
deriving DecidableEq, Repr

/-- One entry of the results list process_batch accumulates. -/
structure ResultRec where
  documentId : String
  status : Status
  error : Option String
deriving DecidableEq, Repr

/-- PipelineBatchProcessor._update_completion_stats. -/
def updateCompletionStats (st : RunStats) (status : Status) : RunStats :=
  { st with
    processed := st.processed + 1
    successful := st.successful + (if status = Status.success then 1 else 0)
    failed := st.failed + (if status = Status.failed then 1 else 0)
    stopped := st.stopped + (if status = Status.stopped then 1 else 0) }

/-- State of one process_batch run: the running flag, the stage-1
futures not yet collected by the first loop, the stage-2 submissions not
yet started by an LLM worker, the started-but-uncollected stage-2 tasks,
whether each collection loop has exited via its stop break, the results
list, the occupancy of the allocated-but-unused stage2_queue, and the
stats counters. -/
structure BatchState where
  flag : Bool
  pending1 : Nat
  queued2 : Nat
  active2 : Nat
  broke1 : Bool
  broke2 : Bool
  results : List ResultRec
  stage2QueueLen : Nat
  stats : RunStats
deriving DecidableEq, Repr

/-- What a completed stage-1 future delivers to the collection loop:
the Stage1Result, or the exception future.result() re-raises. -/
inductive S1Out where
  | res (r : Stage1Result)
  | exn (e : String)
deriving DecidableEq, Repr

/-- What a completed stage-2 future delivers: the result dictionary, or
the exception future.result() re-raises. -/
inductive S2Out where
  | res (d : Stage2Dict)
  | exn (e : String)
deriving DecidableEq, Repr

/-- Events of one run: stop() flipping the flag; the first loop handling
one completed stage-1 future for the PDF of the given name; an LLM-pool
worker starting one submitted stage-2 task; the second loop handling one
completed stage-2 task of the given document_id. -/
inductive PEvent where
  | stop
  | s1done (pdfName : String) (out : S1Out)
  | s2start
  | s2done (documentId : String) (out : S2Out)
deriving DecidableEq, Repr

/-- State entering process_batch for n files: is_running set, the stats
dictionary reset with total = n, every file submitted to the OCR pool,
the stage2_queue freshly allocated (empty, and it stays empty). -/
def initState (n : Nat) : BatchState :=
  ⟨true, n, 0, 0, false, false, [], 0, ⟨n, 0, 0, 0, 0, 0, 0⟩⟩

/-- One transition of process_batch.  s1done mirrors the first
collection loop body: the break when the flag is observed false,
otherwise submission to the LLM executor on status success (in_queue
incremented; the bounded stage2_queue is not touched), and immediate
recording for any other status, with a failed record built from
pdf_path.stem on an exception.  s2start mirrors the stats update at the
top of _stage2_llm.  s2done mirrors the second collection loop plus the
finally of _stage2_llm: llm_active drops, then the break when the flag
is observed false, otherwise the result is recorded (a failed record
carrying the stage1_result document_id on an exception). -/
def stepEv (s : BatchState) : PEvent → BatchState
  | PEvent.stop => { s with flag := false }
  | PEvent.s1done pdfName out =>
    if !s.flag then { s with broke1 := true }
    else
      match out with
      | S1Out.res r =>
        if r.status = Status.success then
          { s with pending1 := s.pending1 - 1, queued2 := s.queued2 + 1,
                   stats := { s.stats with inQueue := s.stats.inQueue + 1 } }
        else
          { s with pending1 := s.pending1 - 1,
                   results := s.results ++ [⟨r.documentId, r.status, r.error⟩],
                   stats := updateCompletionStats s.stats r.status }
      | S1Out.exn e =>
          { s with pending1 := s.pending1 - 1,
                   results := s.results ++
                     [⟨stemOf pdfName, Status.failed,
                       some ("Stage 1 exception: " ++ e)⟩],
                   stats := updateCompletionStats s.stats Status.failed }
  | PEvent.s2start =>
      { s with
        queued2 := s.queued2 - 1
        active2 := s.active2 + 1
        stats := { s.stats with
          inQueue := s.stats.inQueue - 1
          llmActive := s.stats.llmActive + 1 } }
  | PEvent.s2done documentId out =>
    let s := { s with
      active2 := s.active2 - 1
      stats := { s.stats with llmActive := s.stats.llmActive - 1 } }
    if !s.flag then { s with broke2 := true }
    else
      match out with
      | S2Out.res d =>
          { s with results := s.results ++ [⟨d.documentId, d.status, d.error⟩],
                   stats := updateCompletionStats s.stats d.status }
      | S2Out.exn e =>
          { s with results := s.results ++
                     [⟨documentId, Status.failed,
                       some ("Stage 2 exception: " ++ e)⟩],
                   stats := updateCompletionStats s.stats Status.failed }

/-- Whether a stage result with status stopped is consistent with the
flag at collection time: ProcessingStoppedException is raised only when
the flag is already false, stop() is the only writer and only clears the
flag, so a stopped result can reach its collection loop only under a
false flag. -/
def stoppedCoupling (status : Status) (flag : Bool) : Bool :=
  !(status == Status.stopped) || !flag

/-- Event enabledness: s1done needs an uncollected stage-1 future and a
first loop that has not broken out; s2start needs a submitted task the
LLM pool has not started; s2done needs a started task, a finished first
loop (the second loop runs after the first), and a second loop that has
not broken out.  Stopped results respect the flag coupling. -/
def okEv (s : BatchState) : PEvent → Bool
  | PEvent.stop => true
  | PEvent.s1done _ out =>
    !s.broke1 && decide (0 < s.pending1) &&
      (match out with
       | S1Out.res r => stoppedCoupling r.status s.flag
       | S1Out.exn _ => true)
  | PEvent.s2start => decide (0 < s.queued2)
  | PEvent.s2done _ out =>
    (s.broke1 || s.pending1 == 0) && !s.broke2 && decide (0 < s.active2) &&
      (match out with
       | S2Out.res d => stoppedCoupling d.status s.flag
       | S2Out.exn _ => true)

/-- Run a sequence of events. -/
def runEvs (s : BatchState) : List PEvent → BatchState
  | [] => s
  | e :: es => runEvs (stepEv s e) es

/-- A sequence of events each enabled in the state it fires from. -/
def okTrace (s : BatchState) : List PEvent → Bool
  | [] => true
  | e :: es => okEv s e && okTrace (stepEv s e) es

/-- The summary dictionary process_batch returns. -/
structure RunSummary where
  total : Nat
  processed : Nat
  successful : Nat
  failed : Nat
  stopped : Nat
  results : List ResultRec
deriving DecidableEq, Repr

/-- Summary assembled from the final stats. -/
def mkSummary (s : BatchState) : RunSummary :=
  ⟨s.stats.total, s.stats.processed, s.stats.successful, s.stats.failed,
   s.stats.stopped, s.results⟩

/-- Terminal-counter sum of the spec invariant. -/
def statusSum (st : RunStats) : Nat :=
  st.successful + st.failed + st.stopped

/-- Items not yet at rest: stage-1 futures uncollected, stage-2 tasks
submitted but unstarted, stage-2 tasks started but uncollected. -/
def outstanding (s : BatchState) : Nat :=
  s.pending1 + s.queued2 + s.active2

/-! Secondary resolver pipeline:
VisionBatchProcessor._process_single_image and the counting step of its
collection loop. -/

/-- Python str.replace on character lists, replacing every
non-overlapping occurrence left to right (structural fuel recursion so
the kernel can evaluate it; fuel above the list length never runs out). -/
def replaceChars (old new : List Char) : Nat → List Char → List Char
  | 0, l => l
  | fuel + 1, l =>
    match l with
    | [] => []
    | c :: rest =>
      if old ≠ [] ∧ old.isPrefixOf (c :: rest) then
        new ++ replaceChars old new fuel ((c :: rest).drop old.length)
      else
        c :: replaceChars old new fuel rest

/-- Python str.replace. -/
def pyReplace (s old new : String) : String :=
  String.mk (replaceChars old.data new.data (s.data.length + 1) s.data)

/-- Identity derivation from the image filename stem: split on "_page_"
and take the first part when that yields exactly two parts, otherwise
strip "_table". -/
def deriveVisionDocId (stem : String) : String :=
  let filenameParts := pySplit stem "_page_"
  match filenameParts with
  | [a, _] => String.mk a
  | _ => pyReplace stem "_table" ""

/-- What happened to the correction input file: left where it was,
deletion attempted (os.remove, its own failure swallowed), or moved to
VISION_FAILED_DIR with a reason (shutil.move, failure swallowed). -/
inductive VisionFileEffect where
  | keptInPlace
  | deleted
  | movedFailed (reason : String)
deriving DecidableEq, Repr

/-- Result dictionary built by _process_single_image. -/
structure VisionResult where
  image : String
  documentId : Option String
  registrationFee : Option Int
  success : Bool
  stopped : Bool
  error : Option String
deriving DecidableEq, Repr

/-- Environment of one _process_single_image call: the running flag at
the two stop checks, the outcome of the vision-model fee extraction
(error when the call raises), and the database the update runs against. -/
structure VisionEnv where
  running1 : Bool
  running2 : Bool
  visionFee : Except String (Option Int)
  db : Database
deriving Repr

/-- Output of one _process_single_image call. -/
structure VisionOut where
  result : VisionResult
  effect : VisionFileEffect
  db : Database
deriving Repr

/-- The PropertyDetail update applied on a successful vision
extraction: registration_fee set from the extracted fee and
guidance_value recomputed, both stored as strings. -/
def visionPropertyUpdate (fee : Int) (p : PropertyDetail) : PropertyDetail :=
  { p with
    registrationFee := some (toString fee)
    guidanceValue := some (toString (calculateGuidanceValue fee)) }

/-- VisionBatchProcessor._process_single_image.  Mirrors the source:
stop check, identity derivation from the filename, vision extraction,
acceptance of any positive fee (no MIN_REGISTRATION_FEE check), stop
check before the database update, then either update plus input
deletion, a dead-letter move when the record is missing or the fee is
invalid, a Stopped exit leaving the input in place, and a dead-letter
move on an unexpected exception. -/
def processSingleImage (env : VisionEnv) (imageName : String) : VisionOut :=
  let base : VisionResult := ⟨imageName, none, none, false, false, none⟩
  if !env.running1 then
    ⟨{ base with
        stopped := true
        error := some "Vision processing stopped by user" },
     VisionFileEffect.keptInPlace, env.db⟩
  else
    let documentId := deriveVisionDocId (stemOf imageName)
    let r := { base with documentId := some documentId }
    match env.visionFee with
    | .error e =>
        ⟨{ r with error := some e }, VisionFileEffect.movedFailed e, env.db⟩
    | .ok feeOpt =>
      match feeOpt with
      | some fee =>
        if fee > 0 then
          let r := { r with registrationFee := some fee }
          if !env.running2 then
            ⟨{ r with
                stopped := true
                error := some "Vision processing stopped before DB update" },
             VisionFileEffect.keptInPlace, env.db⟩
          else
            match env.db.props.find? (fun p => p.documentId == documentId) with
            | some _ =>
                let props' := updateFirst (fun p => p.documentId == documentId)
                  (visionPropertyUpdate fee) env.db.props
                ⟨{ r with success := true }, VisionFileEffect.deleted,
                 { env.db with props := props' }⟩
            | none =>
                let msg := "Document " ++ documentId ++ " not found in database"
                ⟨{ r with error := some msg },
                 VisionFileEffect.movedFailed msg, env.db⟩
        else
          ⟨{ r with error := some "Invalid or no registration fee extracted" },
           VisionFileEffect.movedFailed "Invalid or no registration fee extracted",
           env.db⟩
      | none =>
          ⟨{ r with error := some "Invalid or no registration fee extracted" },
           VisionFileEffect.movedFailed "Invalid or no registration fee extracted",
           env.db⟩

/-- The failed-counter increment condition of the vision collection loop
(a result is counted failed only when it is neither a success nor
stopped). -/
def visionCountsFailed (r : VisionResult) : Bool :=
  !r.success && !r.stopped

/-! Sample data used by concrete runs. -/

/-- A successful stage-1 result for a given document id. -/
def s1Success (id : String) : Stage1Result :=
  ⟨id ++ "_ocred.pdf", id, none, none, "text", Status.success, none⟩

/-- A stage-1 result for an item stopped at the first checkpoint. -/
def s1Stopped (id : String) : Stage1Result :=
  ⟨id ++ "_ocred.pdf", id, none, none, "", Status.stopped,
   some "Stopped before Stage 1"⟩

/-- A stage-2 result dictionary for an item stopped before the LLM call. -/
def s2StoppedDict (id : String) : Stage2Dict :=
  ⟨id, Status.stopped, none, false, false, false, some "Stopped before LLM"⟩

/-- Three stage-1 successes collected while the LLM pool has started
none of the submitted tasks (a schedule the thread interleaving allows,
since executor.submit never blocks). -/
def c1Trace : List PEvent :=
  [PEvent.s1done "a_ocred.pdf" (S1Out.res (s1Success "a")),
   PEvent.s1done "b_ocred.pdf" (S1Out.res (s1Success "b")),
   PEvent.s1done "c_ocred.pdf" (S1Out.res (s1Success "c"))]

/-- Claim C1: the spec states that on stage-1 Success the orchestrator
performs a blocking put into a bounded admission channel of capacity
STAGE2_QUEUE_SIZE = 2, so at no instant more than 2 completed-stage-1
items wait between the stages.  In the code the allocated stage2_queue
is never used: successes are submitted straight to the unbounded
internal queue of the LLM executor.  This run of 3 files reaches an
instant with 3 completed-stage-1 items waiting (in_queue = 3) while the
allocated bounded queue is still empty. -/
theorem c1_admission_channel_not_bounded :
    okTrace (initState 3) c1Trace = true ∧
    (runEvs (initState 3) c1Trace).stats.inQueue = 3 ∧
    3 > STAGE2_QUEUE_SIZE ∧
    (runEvs (initState 3) c1Trace).stage2QueueLen = 0 := by
  decide

/-- A single item: stage 1 succeeds, the task is submitted to stage 2,
stop() is called before stage 2 begins, the stage-2 task observes the
flag at its first checkpoint and returns status stopped. -/
def c3Trace : List PEvent :=
  [PEvent.s1done "doc1_ocred.pdf" (S1Out.res (s1Success "doc1")),
   PEvent.stop,
   PEvent.s2start,
   PEvent.s2done "doc1" (S2Out.res (s2StoppedDict "doc1"))]

/-- Claim C3: the spec scenario says a single-item run stopped before
stage 2 ends with RunSummary.stopped = 1.  In the code both collection
loops break on a false flag before reading the completed future, and the
flag is monotone within a run, so the stopped result is never recorded:
the run ends with stopped = 0, processed = 0 and an empty results list
even though the item terminated with status stopped. -/
theorem c3_stopped_item_never_counted :
    okTrace (initState 1) c3Trace = true ∧
    (mkSummary (runEvs (initState 1) c3Trace)).stopped = 0 ∧
    (mkSummary (runEvs (initState 1) c3Trace)).processed = 0 ∧
    (mkSummary (runEvs (initState 1) c3Trace)).results = [] ∧
    outstanding (runEvs (initState 1) c3Trace) = 0 := by
  decide

/-- A stage-1 result for an item whose OCR validation failed. -/
def s1Failed (id : String) : Stage1Result :=
  ⟨id ++ "_ocred.pdf", id, none, none, "", Status.failed,
   some "OCR returned insufficient text"⟩

/-- Two items: the first fails stage 1 and is recorded, the second
passes stage 1 and is submitted, stop() arrives before its stage-2 task
begins, and that task finishes stopped. -/
def c4Trace : List PEvent :=
  [PEvent.s1done "a_ocred.pdf" (S1Out.res (s1Failed "a")),
   PEvent.s1done "b_ocred.pdf" (S1Out.res (s1Success "b")),
   PEvent.stop,
   PEvent.s2start,
   PEvent.s2done "b" (S2Out.res (s2StoppedDict "b"))]

/-- Claim C4, counterexample to the equality half: a stopped two-item
run drains (no pending, queued or in-flight item remains) with
successful + failed + stopped = 1 while total = 2, because the broken
second collection loop never recorded the stopped item. -/
theorem c4_counterexample_drained_sum_lt_total :
    okTrace (initState 2) c4Trace = true ∧
    outstanding (runEvs (initState 2) c4Trace) = 0 ∧
    statusSum (runEvs (initState 2) c4Trace).stats = 1 ∧
    (runEvs (initState 2) c4Trace).stats.total = 2 := by
  decide

/-- A single item whose stage-1 future completes with status stopped
after stop() was called. -/
def c6Trace : List PEvent :=
  [PEvent.stop,
   PEvent.s1done "a_ocred.pdf" (S1Out.res (s1Stopped "a"))]

/-- Claim C6, counterexample to the recording half: a stage-1 result
with status Stopped is never submitted to stage 2, but neither is it
recorded as terminal - the first collection loop breaks on the false
flag before reading it, so the results list stays empty and no counter
moves. -/
theorem c6_counterexample_stopped_not_recorded :
    okTrace (initState 1) c6Trace = true ∧
    (runEvs (initState 1) c6Trace).results = [] ∧
    (runEvs (initState 1) c6Trace).queued2 = 0 ∧
    (runEvs (initState 1) c6Trace).stats.processed = 0 := by
  decide

/-- Any single completion bumps the terminal-counter sum by exactly one,
whatever the status. -/
theorem statusSum_updateCompletionStats (st : RunStats) (status : Status) :
    statusSum (updateCompletionStats st status) = statusSum st + 1 := by
  cases status <;> simp [statusSum, updateCompletionStats] <;> omega

/-- Run invariant: the recorded terminal counters plus the outstanding
items never exceed total, and while the running flag is still set they
account for total exactly. -/
def batchInv (s : BatchState) : Prop :=
  statusSum s.stats + outstanding s ≤ s.stats.total ∧
  (s.flag = true → statusSum s.stats + outstanding s = s.stats.total)

/-- Every enabled event preserves the run invariant. -/
theorem batchInv_step (s : BatchState) (e : PEvent)
    (h : batchInv s) (hok : okEv s e = true) : batchInv (stepEv s e) := by
  obtain ⟨h1, h2⟩ := h
  simp only [statusSum, outstanding] at h1 h2
  cases e with
  | stop =>
    refine ⟨?_, ?_⟩
    · simpa [stepEv, statusSum, outstanding] using h1
    · intro hft
      simp [stepEv] at hft
  | s1done pdfName out =>
    simp only [okEv, Bool.and_eq_true, decide_eq_true_eq] at hok
    obtain ⟨⟨hb, hp⟩, -⟩ := hok
    by_cases hf : s.flag
    · have h2' := h2 hf
      cases out with
      | res r =>
        by_cases hsu : r.status = Status.success
        · refine ⟨?_, fun _ => ?_⟩ <;>
            simp [stepEv, hf, hsu, statusSum, outstanding] <;> omega
        · cases hst : r.status <;> simp [hst] at hsu <;>
            refine ⟨?_, fun _ => ?_⟩ <;>
            simp [stepEv, hf, hst, hsu, statusSum, outstanding,
              updateCompletionStats] <;> omega
      | exn e' =>
        refine ⟨?_, fun _ => ?_⟩ <;>
          simp [stepEv, hf, statusSum, outstanding, updateCompletionStats] <;>
          omega
    · replace hf : s.flag = false := by simpa using hf
      refine ⟨?_, ?_⟩
      · simpa [stepEv, hf, statusSum, outstanding] using h1
      · intro hft
        simp [stepEv, hf] at hft
  | s2start =>
    simp only [okEv, decide_eq_true_eq] at hok
    refine ⟨?_, ?_⟩
    · simp [stepEv, statusSum, outstanding]
      omega
    · intro hft
      have h2' := h2 (by simpa [stepEv] using hft)
      simp [stepEv, statusSum, outstanding]
      omega
  | s2done documentId out =>
    simp only [okEv, Bool.and_eq_true, decide_eq_true_eq] at hok
    obtain ⟨⟨-, ha⟩, -⟩ := hok
    by_cases hf : s.flag
    · have h2' := h2 hf
      cases out with
      | res d =>
        cases hst : d.status <;>
          refine ⟨?_, fun _ => ?_⟩ <;>
          simp [stepEv, hf, hst, statusSum, outstanding,
            updateCompletionStats] <;> omega
      | exn e' =>
        refine ⟨?_, fun _ => ?_⟩ <;>
          simp [stepEv, hf, statusSum, outstanding, updateCompletionStats] <;>
          omega
    · replace hf : s.flag = false := by simpa using hf
      refine ⟨?_, ?_⟩
      · simp [stepEv, hf, statusSum, outstanding]
        omega
      · intro hft
        simp [stepEv, hf] at hft

/-- The run invariant holds after any enabled trace. -/
theorem batchInv_run (tr : List PEvent) (s : BatchState)
    (h : batchInv s) (hok : okTrace s tr = true) : batchInv (runEvs s tr) := by
  induction tr generalizing s with
  | nil => exact h
  | cons e es ih =>
    simp only [okTrace, Bool.and_eq_true] at hok
    exact ih (stepEv s e) (batchInv_step s e h hok.1) hok.2

/-- Claim C4 (amended): in every reachable state of a run on n files,
successful + failed + stopped is at most total; and when the run drains
while the running flag was never cleared, the sum equals total.  (The
unamended equality-at-drain fails when a stop discards uncollected
results, see the counterexample.) -/
theorem c4_counter_invariant (n : Nat) (tr : List PEvent)
    (hok : okTrace (initState n) tr = true) :
    statusSum (runEvs (initState n) tr).stats
        ≤ (runEvs (initState n) tr).stats.total ∧
    ((runEvs (initState n) tr).flag = true →
      outstanding (runEvs (initState n) tr) = 0 →
      statusSum (runEvs (initState n) tr).stats
        = (runEvs (initState n) tr).stats.total) := by
  have hinit : batchInv (initState n) := by
    constructor <;> simp [batchInv, initState, statusSum, outstanding]
  have h := batchInv_run tr (initState n) hinit hok
  obtain ⟨h1, h2⟩ := h
  refine ⟨by omega, fun hf hd => ?_⟩
  have := h2 hf
  omega

/-- A stage-2 success dictionary for one fully processed item. -/
def s2SuccessDict (id : String) : Stage2Dict :=
  ⟨id, Status.success, none, true, true, false, none⟩

/-- A complete undisturbed one-item run: stage 1 succeeds, the stage-2
task starts and succeeds, everything is collected. -/
def c4WitnessTrace : List PEvent :=
  [PEvent.s1done "doc1_ocred.pdf" (S1Out.res (s1Success "doc1")),
   PEvent.s2start,
   PEvent.s2done "doc1" (S2Out.res (s2SuccessDict "doc1"))]

/-- Witness for the amended C4 invariant on a concrete drained run. -/
theorem c4_counter_invariant_witness :
    statusSum (runEvs (initState 1) c4WitnessTrace).stats
        ≤ (runEvs (initState 1) c4WitnessTrace).stats.total ∧
    ((runEvs (initState 1) c4WitnessTrace).flag = true →
      outstanding (runEvs (initState 1) c4WitnessTrace) = 0 →
      statusSum (runEvs (initState 1) c4WitnessTrace).stats
        = (runEvs (initState 1) c4WitnessTrace).stats.total) :=
  c4_counter_invariant 1 c4WitnessTrace (by decide)

/-- Claim C5: when a stage function raises an unexpected exception (the
future surfaces an exception instead of a deliberate result), the
collection loop converts it to a Failed terminal record carrying the
exception text - "Stage 1 exception: ..." with the document id taken
from pdf_path.stem, "Stage 2 exception: ..." with the stage-1 document
id - bumps the failed counter, and does not break out of either loop, so
the remaining items keep being processed. -/
theorem c5_unexpected_exception_isolated (s t : BatchState)
    (p e documentId e2 : String)
    (hs : s.flag = true)
    (hok1 : okEv s (PEvent.s1done p (S1Out.exn e)) = true)
    (ht : t.flag = true)
    (hok2 : okEv t (PEvent.s2done documentId (S2Out.exn e2)) = true) :
    (stepEv s (PEvent.s1done p (S1Out.exn e))).results
      = s.results ++ [⟨stemOf p, Status.failed,
                       some ("Stage 1 exception: " ++ e)⟩] ∧
    (stepEv s (PEvent.s1done p (S1Out.exn e))).broke1 = false ∧
    (stepEv s (PEvent.s1done p (S1Out.exn e))).stats.failed
      = s.stats.failed + 1 ∧
    (stepEv t (PEvent.s2done documentId (S2Out.exn e2))).results
      = t.results ++ [⟨documentId, Status.failed,
                       some ("Stage 2 exception: " ++ e2)⟩] ∧
    (stepEv t (PEvent.s2done documentId (S2Out.exn e2))).broke2 = false ∧
    (stepEv t (PEvent.s2done documentId (S2Out.exn e2))).stats.failed
      = t.stats.failed + 1 := by
  simp only [okEv, Bool.and_eq_true, Bool.not_eq_true', decide_eq_true_eq,
    Bool.and_true] at hok1 hok2
  obtain ⟨hb1, -⟩ := hok1
  obtain ⟨⟨-, hb2⟩, -⟩ := hok2
  refine ⟨?_, ?_, ?_, ?_, ?_, ?_⟩ <;>
    simp [stepEv, hs, ht, updateCompletionStats] <;>
    simp_all

/-- A state of the second collection loop with one started stage-2 task
outstanding and the first loop finished. -/
def s2LoopState : BatchState :=
  ⟨true, 0, 0, 1, false, false, [], 0, ⟨1, 0, 0, 0, 0, 0, 1⟩⟩

/-- Witness for C5 on concrete loop states and exception texts. -/
theorem c5_unexpected_exception_isolated_witness :
    (stepEv (initState 1) (PEvent.s1done "a_ocred.pdf" (S1Out.exn "boom"))).results
      = (initState 1).results ++ [⟨stemOf "a_ocred.pdf", Status.failed,
                                   some ("Stage 1 exception: " ++ "boom")⟩] ∧
    (stepEv (initState 1) (PEvent.s1done "a_ocred.pdf" (S1Out.exn "boom"))).broke1
      = false ∧
    (stepEv (initState 1) (PEvent.s1done "a_ocred.pdf" (S1Out.exn "boom"))).stats.failed
      = (initState 1).stats.failed + 1 ∧
    (stepEv s2LoopState (PEvent.s2done "doc1" (S2Out.exn "crash"))).results
      = s2LoopState.results ++ [⟨"doc1", Status.failed,
                                 some ("Stage 2 exception: " ++ "crash")⟩] ∧
    (stepEv s2LoopState (PEvent.s2done "doc1" (S2Out.exn "crash"))).broke2
      = false ∧
    (stepEv s2LoopState (PEvent.s2done "doc1" (S2Out.exn "crash"))).stats.failed
      = s2LoopState.stats.failed + 1 :=
  c5_unexpected_exception_isolated (initState 1) s2LoopState
    "a_ocred.pdf" "boom" "doc1" "crash" rfl (by decide) rfl (by decide)

/-- Claim C6 (amended): a stage-1 future handled by the first collection
loop hands the item to stage 2 exactly when its status is Success; while
the run is live a Failed stage-1 result is recorded as terminal
immediately; a Stopped stage-1 result is neither handed to stage 2 nor
recorded, because the loop has observed the cleared flag and breaks
before reading it. -/
theorem c6_short_circuit (s : BatchState) (p : String) (r : Stage1Result)
    (hok : okEv s (PEvent.s1done p (S1Out.res r)) = true) :
    ((stepEv s (PEvent.s1done p (S1Out.res r))).queued2 ≠ s.queued2 →
      r.status = Status.success) ∧
    (s.flag = true → r.status = Status.failed →
      (stepEv s (PEvent.s1done p (S1Out.res r))).results
        = s.results ++ [⟨r.documentId, r.status, r.error⟩] ∧
      (stepEv s (PEvent.s1done p (S1Out.res r))).queued2 = s.queued2) ∧
    (r.status = Status.stopped →
      (stepEv s (PEvent.s1done p (S1Out.res r))).results = s.results ∧
      (stepEv s (PEvent.s1done p (S1Out.res r))).queued2 = s.queued2) := by
  simp only [okEv, Bool.and_eq_true, decide_eq_true_eq] at hok
  obtain ⟨⟨hb, hp⟩, hcoup⟩ := hok
  by_cases hf : s.flag
  · refine ⟨?_, fun _ hst => ?_, fun hst => ?_⟩
    · intro hq
      by_contra hsu
      simp [stepEv, hf, hsu] at hq
    · have hsu : ¬ r.status = Status.success := by simp [hst]
      simp [stepEv, hf, hst, hsu]
    · exfalso
      simp [stoppedCoupling, hst, hf] at hcoup
  · replace hf : s.flag = false := by simpa using hf
    refine ⟨?_, fun hft => ?_, fun hst => ?_⟩
    · intro hq
      simp [stepEv, hf] at hq
    · simp [hf] at hft
    · simp [stepEv, hf]

/-- Witness for the amended C6 on a live run and a failed stage-1
result. -/
theorem c6_short_circuit_witness :
    ((stepEv (initState 1)
        (PEvent.s1done "a_ocred.pdf" (S1Out.res (s1Failed "a")))).queued2
        ≠ (initState 1).queued2 →
      (s1Failed "a").status = Status.success) ∧
    ((initState 1).flag = true → (s1Failed "a").status = Status.failed →
      (stepEv (initState 1)
        (PEvent.s1done "a_ocred.pdf" (S1Out.res (s1Failed "a")))).results
        = (initState 1).results
          ++ [⟨(s1Failed "a").documentId, (s1Failed "a").status,
               (s1Failed "a").error⟩] ∧
      (stepEv (initState 1)
        (PEvent.s1done "a_ocred.pdf" (S1Out.res (s1Failed "a")))).queued2
        = (initState 1).queued2) ∧
    ((s1Failed "a").status = Status.stopped →
      (stepEv (initState 1)
        (PEvent.s1done "a_ocred.pdf" (S1Out.res (s1Failed "a")))).results
        = (initState 1).results ∧
      (stepEv (initState 1)
        (PEvent.s1done "a_ocred.pdf" (S1Out.res (s1Failed "a")))).queued2
        = (initState 1).queued2) :=
  c6_short_circuit (initState 1) "a_ocred.pdf" (s1Failed "a") (by decide)

/-- Stage-1 environment of the C2 scenario: collaborators healthy, OCR
yields a short text ("short" has fewer than 100 characters). -/
def c2Env : Stage1Env :=
  ⟨true, true, true, Except.ok none, Except.ok "short", true, none⟩

/-- Claim C2: the spec says an item whose stage function returns Failed
- in particular a stage-1 OCR validation failure - has its backing PDF
moved to the failure location.  In the code only the stage-2 except
handler moves the file; process_stage1_ocr and the stage-1 branch of the
collection loop perform no move, so the item ends Failed, is counted
failed in the summary, and the PDF stays where it was (the legacy
single-stage processor does quarantine this very failure). -/
theorem c2_stage1_failure_not_quarantined :
    (processStage1Ocr c2Env "DOC42_ocred.pdf").result.status = Status.failed ∧
    (processStage1Ocr c2Env "DOC42_ocred.pdf").result.error
      = some "OCR returned insufficient text" ∧
    (processStage1Ocr c2Env "DOC42_ocred.pdf").moves = [] ∧
    okEv (initState 1) (PEvent.s1done "DOC42_ocred.pdf"
      (S1Out.res (processStage1Ocr c2Env "DOC42_ocred.pdf").result)) = true ∧
    (stepEv (initState 1) (PEvent.s1done "DOC42_ocred.pdf"
      (S1Out.res (processStage1Ocr c2Env "DOC42_ocred.pdf").result))).stats.failed
      = 1 := by
  decide

/-- Claim C7: an item that terminates with status Stopped has its
backing PDF left untouched: stage 1 performs no relocation on any path,
and a stage-2 call that ends Stopped performs no relocation either (the
moves to the processed and failure directories sit on the Success and
Failed paths only). -/
theorem c7_stopped_file_untouched (env1 : Stage1Env) (p : String)
    (env2 : Stage2Env) (r1 : Stage1Result)
    (h : (processStage2Llm env2 r1).result.status = Status.stopped) :
    (processStage1Ocr env1 p).moves = [] ∧
    (processStage2Llm env2 r1).moves = [] := by
  constructor
  · unfold processStage1Ocr
    split <;> [simp [stage1Stopped]; skip]
    split <;> [simp [stage1Failed]; skip]
    split <;> [simp [stage1Stopped]; skip]
    split <;> [simp [stage1Failed]; skip]
    split <;> [simp [stage1Failed]; skip]
    split <;> simp [stage1Stopped]
  · by_cases hr1 : env2.running1
    · rcases hl : env2.llm with e | od
      · simp [processStage2Llm, hr1, hl, stage2Failed] at h
      · rcases od with _ | d
        · simp [processStage2Llm, hr1, hl, stage2Failed] at h
        · by_cases hr2 : env2.running2
          · by_cases hr3 : env2.running3
            · rcases hc : env2.dbCommit with ce | cu
              · simp [processStage2Llm, hr1, hl, hr2, hr3, hc,
                  stage2Failed] at h
              · by_cases hr4 : env2.running4
                · simp [processStage2Llm, hr1, hl, hr2, hr3, hc, hr4] at h
                · simp [processStage2Llm, hr1, hl, hr2, hr3, hc, hr4,
                    stage2Stopped]
            · simp [processStage2Llm, hr1, hl, hr2, hr3, stage2Stopped]
          · simp [processStage2Llm, hr1, hl, hr2, stage2Stopped]
    · simp [processStage2Llm, hr1, stage2Stopped]

/-- A healthy stage-1 environment (used only to instantiate claims). -/
def env1Sample : Stage1Env :=
  ⟨true, true, true, Except.ok none, Except.ok "x", false, none⟩

/-- A stage-2 environment whose run was stopped before the LLM call. -/
def env2Stop : Stage2Env :=
  ⟨false, true, true, true, Except.ok none, fun d => d, Except.ok (), false,
   true, ⟨[], [], [], []⟩, 0, Except.ok (), Except.ok ()⟩

/-- Witness for C7 on a concrete stopped stage-2 call. -/
theorem c7_stopped_file_untouched_witness :
    (processStage1Ocr env1Sample "a_ocred.pdf").moves = [] ∧
    (processStage2Llm env2Stop (s1Success "a")).moves = [] :=
  c7_stopped_file_untouched env1Sample "a_ocred.pdf" env2Stop (s1Success "a")
    rfl

/-! Claim C8: idempotence of _save_to_database. -/

/-- Number of DocumentDetail rows stored under an identity. -/
def countDocs (db : Database) (id : String) : Nat :=
  db.docs.countP (fun d => d.documentId == id)

/-- Number of PropertyDetail rows stored under an identity. -/
def countProps (db : Database) (id : String) : Nat :=
  db.props.countP (fun p => p.documentId == id)

/-- updateFirst keeps the match count when the update preserves the
predicate. -/
theorem countP_updateFirst (p : α → Bool) (f : α → α)
    (hf : ∀ a, p a = true → p (f a) = true) (l : List α) :
    (updateFirst p f l).countP p = l.countP p := by
  induction l with
  | nil => simp [updateFirst]
  | cons x xs ih =>
    by_cases hx : p x = true
    · simp [updateFirst, hx, hf x hx, List.countP_cons]
    · simp [updateFirst, hx, ih, List.countP_cons]

/-- When at most one element matches and the update sends every matching
element to the same value c (still matching), updating the first match
leaves exactly [c] as the matching sublist. -/
theorem filter_updateFirst_const (p : α → Bool) (f : α → α) (c : α)
    (hc : ∀ a, p a = true → f a = c) (hpc : p c = true) (l : List α)
    (h1 : l.countP p ≤ 1) (h2 : (l.find? p).isSome = true) :
    (updateFirst p f l).filter p = [c] := by
  induction l with
  | nil => simp [List.find?] at h2
  | cons x xs ih =>
    by_cases hx : p x = true
    · have hxs : xs.countP p = 0 := by
        have e : (x :: xs).countP p = xs.countP p + 1 := by
          simp [List.countP_cons, hx]
        omega
      have hfil : xs.filter p = [] :=
        List.filter_eq_nil_iff.mpr (by
          intro a ha
          have := List.countP_eq_zero.mp hxs a ha
          simpa using this)
      simp [updateFirst, hx, hc x hx, hpc, hfil]
    · have hx' : p x = false := by
        rcases hpx : p x with _ | _
        · rfl
        · exact absurd hpx hx
      have h2' : (xs.find? p).isSome = true := by
        rw [List.find?_cons, hx'] at h2
        exact h2
      have h1' : xs.countP p ≤ 1 := by
        have e : (x :: xs).countP p = xs.countP p := by
          simp [List.countP_cons, hx']
        omega
      simp [updateFirst, hx', ih h1' h2']

/-- A save leaves exactly one DocumentDetail row under the identity when
the database held at most one before (the found row is updated in
place, otherwise one new row is appended). -/
theorem countDocs_save (db : Database) (id : String) (data : ExtractedData)
    (f : Option Int) (now : Nat) (h : countDocs db id ≤ 1) :
    countDocs (saveToDatabase id data f now db) id = 1 := by
  unfold countDocs saveToDatabase
  by_cases hf : (db.docs.find? (fun d => d.documentId == id)).isSome = true
  · obtain ⟨d, hd, hpd⟩ := List.find?_isSome.mp hf
    have hpos : 0 < db.docs.countP (fun d => d.documentId == id) :=
      List.countP_pos_iff.mpr ⟨d, hd, hpd⟩
    have hcnt := countP_updateFirst (fun d => d.documentId == id)
      (fun d => { d with
        transactionDate := data.documentDetails.transactionDate
        registrationOffice := data.documentDetails.registrationOffice
        updatedAt := now })
      (by intro a ha; simpa using ha) db.docs
    simp only [hf, if_true]
    rw [hcnt]
    unfold countDocs at h
    omega
  · have hnone : db.docs.find? (fun d => d.documentId == id) = none := by
      rcases hopt : db.docs.find? (fun d => d.documentId == id) with _ | v
      · exact hopt
      · rw [hopt] at hf
        simp at hf
    have hzero : db.docs.countP (fun d => d.documentId == id) = 0 :=
      List.countP_eq_zero.mpr (by
        intro a ha
        have := List.find?_eq_none.mp hnone a ha
        simpa using this)
    simp [hf, List.countP_append, hzero, List.countP_cons]

/-- A save leaves exactly one PropertyDetail row under the identity when
the database held at most one before. -/
theorem countProps_save (db : Database) (id : String) (data : ExtractedData)
    (f : Option Int) (now : Nat) (h : countProps db id ≤ 1) :
    countProps (saveToDatabase id data f now db) id = 1 := by
  unfold countProps saveToDatabase
  by_cases hf : (db.props.find? (fun p => p.documentId == id)).isSome = true
  · obtain ⟨d, hd, hpd⟩ := List.find?_isSome.mp hf
    have hpos : 0 < db.props.countP (fun p => p.documentId == id) :=
      List.countP_pos_iff.mpr ⟨d, hd, hpd⟩
    have hcnt := countP_updateFirst (fun p => p.documentId == id)
      (assignPropertyFields data.propertyDetails f)
      (by intro a ha; simpa [assignPropertyFields] using ha) db.props
    simp only [hf, if_true]
    rw [hcnt]
    unfold countProps at h
    omega
  · have hnone : db.props.find? (fun p => p.documentId == id) = none := by
      rcases hopt : db.props.find? (fun p => p.documentId == id) with _ | v
      · exact hopt
      · rw [hopt] at hf
        simp at hf
    have hzero : db.props.countP (fun p => p.documentId == id) = 0 :=
      List.countP_eq_zero.mpr (by
        intro a ha
        have := List.find?_eq_none.mp hnone a ha
        simpa using this)
    simp [hf, List.countP_append, hzero, List.countP_cons,
      assignPropertyFields]

/-- Filtering for a predicate after filtering for its negation yields
nothing. -/
theorem filter_after_filter_not (p : α → Bool) (l : List α) :
    (l.filter (fun a => !(p a))).filter p = [] := by
  induction l with
  | nil => simp
  | cons x xs ih =>
    by_cases hx : p x = true <;> simp [hx, ih]

/-- Every row built by mkBuyerRow matches its document id. -/
theorem filter_map_mkBuyerRow (id : String) (l : List BuyerData) :
    (l.map (mkBuyerRow id)).filter (fun b => b.documentId == id)
      = l.map (mkBuyerRow id) := by
  induction l with
  | nil => simp
  | cons x xs ih => simp [mkBuyerRow, ih]

/-- Every row built by mkSellerRow matches its document id. -/
theorem filter_map_mkSellerRow (id : String) (l : List SellerData) :
    (l.map (mkSellerRow id)).filter (fun s => s.documentId == id)
      = l.map (mkSellerRow id) := by
  induction l with
  | nil => simp
  | cons x xs ih => simp [mkSellerRow, ih]

/-- After any save, the buyer rows of the identity are exactly the rows
of the current payload (delete-then-reinsert). -/
theorem buyers_save (db : Database) (id : String) (data : ExtractedData)
    (f : Option Int) (now : Nat) :
    (saveToDatabase id data f now db).buyers.filter
        (fun b => b.documentId == id)
      = data.buyerDetails.map (mkBuyerRow id) := by
  unfold saveToDatabase
  simp [List.filter_append, filter_after_filter_not, filter_map_mkBuyerRow]

/-- After any save, the seller rows of the identity are exactly the rows
of the current payload (delete-then-reinsert). -/
theorem sellers_save (db : Database) (id : String) (data : ExtractedData)
    (f : Option Int) (now : Nat) :
    (saveToDatabase id data f now db).sellers.filter
        (fun s => s.documentId == id)
      = data.sellerDetails.map (mkSellerRow id) := by
  unfold saveToDatabase
  simp [List.filter_append, filter_after_filter_not, filter_map_mkSellerRow]

/-- The blank PropertyDetail row _save_to_database constructs before
assigning the extracted fields. -/
def blankProperty (id : String) : PropertyDetail :=
  ⟨id, none, none, none, none, none, none, none, none, none, none, none,
   none⟩

/-- A document count of one yields a found row. -/
theorem find?_isSome_of_countDocs_one (db : Database) (id : String)
    (h : countDocs db id = 1) :
    (db.docs.find? (fun d => d.documentId == id)).isSome = true := by
  have hpos : 0 < db.docs.countP (fun d => d.documentId == id) := by
    unfold countDocs at h
    omega
  obtain ⟨a, ha, hpa⟩ := List.countP_pos_iff.mp hpos
  exact List.find?_isSome.mpr ⟨a, ha, hpa⟩

/-- A property count of one yields a found row. -/
theorem find?_isSome_of_countProps_one (db : Database) (id : String)
    (h : countProps db id = 1) :
    (db.props.find? (fun p => p.documentId == id)).isSome = true := by
  have hpos : 0 < db.props.countP (fun p => p.documentId == id) := by
    unfold countProps at h
    omega
  obtain ⟨a, ha, hpa⟩ := List.countP_pos_iff.mp hpos
  exact List.find?_isSome.mpr ⟨a, ha, hpa⟩

/-- When the document row exists (uniquely), a save overwrites it in
place: the rows under the identity become exactly the one row carrying
the document-level fields of the current payload. -/
theorem docs_filter_save (db : Database) (id : String) (data : ExtractedData)
    (f : Option Int) (now : Nat)
    (hs : (db.docs.find? (fun d => d.documentId == id)).isSome = true)
    (hcnt : countDocs db id ≤ 1) :
    (saveToDatabase id data f now db).docs.filter
        (fun d => d.documentId == id)
      = [⟨id, data.documentDetails.transactionDate,
          data.documentDetails.registrationOffice, now⟩] := by
  unfold saveToDatabase
  simp only [hs, if_true]
  refine filter_updateFirst_const _ _ _ ?_ (by simp) db.docs hcnt hs
  intro a ha
  have hid : a.documentId = id := by simpa using ha
  simp [hid]

/-- When the property row exists (uniquely), a save overwrites it in
place: the rows under the identity become exactly the freshly assigned
row of the current payload. -/
theorem props_filter_save (db : Database) (id : String) (data : ExtractedData)
    (f : Option Int) (now : Nat)
    (hs : (db.props.find? (fun p => p.documentId == id)).isSome = true)
    (hcnt : countProps db id ≤ 1) :
    (saveToDatabase id data f now db).props.filter
        (fun p => p.documentId == id)
      = [assignPropertyFields data.propertyDetails f (blankProperty id)] := by
  unfold saveToDatabase
  simp only [hs, if_true]
  refine filter_updateFirst_const _ _ _ ?_ (by simp [assignPropertyFields, blankProperty]) db.props hcnt hs
  intro a ha
  have hid : a.documentId = id := by simpa using ha
  simp [assignPropertyFields, blankProperty, hid]

/-- Claim C8: reprocessing an identity that already has persisted fields
keeps exactly one document row and one property row, overwritten in
place with the document-level and property-level fields of the latest
run, and the child records equal the latest payload: saving twice from a
database with at most one row per table under the identity ends with one
DocumentDetail row and one PropertyDetail row holding the fields of the
second payload, and buyer/seller rows equal to the rows of the second
payload - no duplicates accumulate. -/
theorem c8_reprocess_replaces (db : Database) (id : String)
    (d1 d2 : ExtractedData) (f1 f2 : Option Int) (t1 t2 : Nat)
    (hdoc : countDocs db id ≤ 1) (hprop : countProps db id ≤ 1) :
    countDocs (saveToDatabase id d2 f2 t2 (saveToDatabase id d1 f1 t1 db)) id
      = 1 ∧
    countProps (saveToDatabase id d2 f2 t2 (saveToDatabase id d1 f1 t1 db)) id
      = 1 ∧
    (saveToDatabase id d2 f2 t2 (saveToDatabase id d1 f1 t1 db)).docs.filter
        (fun d => d.documentId == id)
      = [⟨id, d2.documentDetails.transactionDate,
          d2.documentDetails.registrationOffice, t2⟩] ∧
    (saveToDatabase id d2 f2 t2 (saveToDatabase id d1 f1 t1 db)).props.filter
        (fun p => p.documentId == id)
      = [assignPropertyFields d2.propertyDetails f2 (blankProperty id)] ∧
    (saveToDatabase id d2 f2 t2 (saveToDatabase id d1 f1 t1 db)).buyers.filter
        (fun b => b.documentId == id) = d2.buyerDetails.map (mkBuyerRow id) ∧
    (saveToDatabase id d2 f2 t2 (saveToDatabase id d1 f1 t1 db)).sellers.filter
        (fun s => s.documentId == id) = d2.sellerDetails.map (mkSellerRow id) := by
  have h1 := countDocs_save db id d1 f1 t1 hdoc
  have h2 := countProps_save db id d1 f1 t1 hprop
  refine ⟨?_, ?_, ?_, ?_, ?_, ?_⟩
  · exact countDocs_save _ id d2 f2 t2 (by omega)
  · exact countProps_save _ id d2 f2 t2 (by omega)
  · exact docs_filter_save _ id d2 f2 t2
      (find?_isSome_of_countDocs_one _ id h1) (by omega)
  · exact props_filter_save _ id d2 f2 t2
      (find?_isSome_of_countProps_one _ id h2) (by omega)
  · exact buyers_save _ id d2 f2 t2
  · exact sellers_save _ id d2 f2 t2

/-- A one-buyer, one-seller payload used to instantiate C8. -/
def sampleData1 : ExtractedData :=
  ⟨⟨some "2024-01-01", some "Office A"⟩,
   ⟨none, none, none, none, none, none, none, none, none, some 500, some 50000⟩,
   [⟨some "Buyer One", none, none, none, none, none, none, none, none, none⟩],
   [⟨some "Seller One", none, none, none, none, none, none, none, none, none,
     some "1/2"⟩]⟩

/-- A different payload for the second run over the same identity. -/
def sampleData2 : ExtractedData :=
  ⟨⟨some "2024-02-02", some "Office B"⟩,
   ⟨some "100 sqft", none, none, none, none, none, none, none, none, some 700,
    some 70000⟩,
   [⟨some "Buyer Two", none, none, none, none, none, none, none, none, none⟩,
    ⟨some "Buyer Three", none, none, none, none, none, none, none, none, none⟩],
   []⟩

/-- Witness for C8 on a concrete empty database and two payloads. -/
theorem c8_reprocess_replaces_witness :
    countDocs (saveToDatabase "D1" sampleData2 (some 7) 2
        (saveToDatabase "D1" sampleData1 none 1 ⟨[], [], [], []⟩)) "D1" = 1 ∧
    countProps (saveToDatabase "D1" sampleData2 (some 7) 2
        (saveToDatabase "D1" sampleData1 none 1 ⟨[], [], [], []⟩)) "D1" = 1 ∧
    (saveToDatabase "D1" sampleData2 (some 7) 2
        (saveToDatabase "D1" sampleData1 none 1 ⟨[], [], [], []⟩)).docs.filter
        (fun d => d.documentId == "D1")
      = [⟨"D1", sampleData2.documentDetails.transactionDate,
          sampleData2.documentDetails.registrationOffice, 2⟩] ∧
    (saveToDatabase "D1" sampleData2 (some 7) 2
        (saveToDatabase "D1" sampleData1 none 1 ⟨[], [], [], []⟩)).props.filter
        (fun p => p.documentId == "D1")
      = [assignPropertyFields sampleData2.propertyDetails (some 7)
          (blankProperty "D1")] ∧
    (saveToDatabase "D1" sampleData2 (some 7) 2
        (saveToDatabase "D1" sampleData1 none 1 ⟨[], [], [], []⟩)).buyers.filter
        (fun b => b.documentId == "D1")
      = sampleData2.buyerDetails.map (mkBuyerRow "D1") ∧
    (saveToDatabase "D1" sampleData2 (some 7) 2
        (saveToDatabase "D1" sampleData1 none 1 ⟨[], [], [], []⟩)).sellers.filter
        (fun s => s.documentId == "D1")
      = sampleData2.sellerDetails.map (mkSellerRow "D1") :=
  c8_reprocess_replaces ⟨[], [], [], []⟩ "D1" sampleData1 sampleData2
    none (some 7) 1 2 (by decide) (by decide)

/-- Claim C9: for the secondary resolver pipeline, a successful item
updates the persisted record resolved by the identity derived from the
input filename and deletes the input; an unsuccessful, unstopped item is
moved to the dead-letter location with the recorded reason; a stopped
item keeps its input in place, leaves the database unchanged, and is not
counted failed by the collection loop. -/
theorem c9_resolver_routing (e1 e2 e3 : VisionEnv) (img1 img2 img3 : String)
    (h1 : (processSingleImage e1 img1).result.success = true)
    (h2 : (processSingleImage e2 img2).result.success = false ∧
          (processSingleImage e2 img2).result.stopped = false)
    (h3 : (processSingleImage e3 img3).result.stopped = true) :
    ((processSingleImage e1 img1).effect = VisionFileEffect.deleted ∧
     (processSingleImage e1 img1).result.documentId
       = some (deriveVisionDocId (stemOf img1)) ∧
     (∃ fee, (processSingleImage e1 img1).result.registrationFee = some fee ∧
       (processSingleImage e1 img1).db.props
         = updateFirst
             (fun p => p.documentId == deriveVisionDocId (stemOf img1))
             (visionPropertyUpdate fee) e1.db.props)) ∧
    ((∃ reason, (processSingleImage e2 img2).effect
        = VisionFileEffect.movedFailed reason ∧
      (processSingleImage e2 img2).result.error = some reason) ∧
     visionCountsFailed (processSingleImage e2 img2).result = true) ∧
    ((processSingleImage e3 img3).effect = VisionFileEffect.keptInPlace ∧
     (processSingleImage e3 img3).db = e3.db ∧
     visionCountsFailed (processSingleImage e3 img3).result = false) := by
  refine ⟨?_, ?_, ?_⟩
  · by_cases hr1 : e1.running1
    · rcases hv : e1.visionFee with e | fo
      · simp [processSingleImage, hr1, hv] at h1
      · rcases fo with _ | fee
        · simp [processSingleImage, hr1, hv] at h1
        · by_cases hpos : fee > 0
          · by_cases hr2 : e1.running2
            · rcases hfind : e1.db.props.find?
                (fun p => p.documentId == deriveVisionDocId (stemOf img1))
                with _ | prop
              · simp [processSingleImage, hr1, hv, hpos, hr2, hfind] at h1
              · refine ⟨?_, ?_, fee, ?_, ?_⟩ <;>
                  simp [processSingleImage, hr1, hv, hpos, hr2, hfind]
            · simp [processSingleImage, hr1, hv, hpos, hr2] at h1
          · simp [processSingleImage, hr1, hv, hpos] at h1
    · simp [processSingleImage, hr1] at h1
  · obtain ⟨h2s, h2p⟩ := h2
    refine ⟨?_, ?_⟩
    · by_cases hr1 : e2.running1
      · rcases hv : e2.visionFee with e | fo
        · exact ⟨e, by simp [processSingleImage, hr1, hv]⟩
        · rcases fo with _ | fee
          · exact ⟨"Invalid or no registration fee extracted",
              by simp [processSingleImage, hr1, hv]⟩
          · by_cases hpos : fee > 0
            · by_cases hr2 : e2.running2
              · rcases hfind : e2.db.props.find?
                  (fun p => p.documentId == deriveVisionDocId (stemOf img2))
                  with _ | prop
                · exact ⟨"Document " ++ deriveVisionDocId (stemOf img2)
                    ++ " not found in database",
                    by simp [processSingleImage, hr1, hv, hpos, hr2, hfind]⟩
                · simp [processSingleImage, hr1, hv, hpos, hr2, hfind] at h2s
              · simp [processSingleImage, hr1, hv, hpos, hr2] at h2p
            · exact ⟨"Invalid or no registration fee extracted",
                by simp [processSingleImage, hr1, hv, hpos]⟩
      · simp [processSingleImage, hr1] at h2p
    · simp [visionCountsFailed, h2s, h2p]
  · refine ⟨?_, ?_, ?_⟩ <;>
      [skip; skip; simp [visionCountsFailed, h3]] <;>
      by_cases hr1 : e3.running1
    · rcases hv : e3.visionFee with e | fo
      · simp [processSingleImage, hr1, hv] at h3
      · rcases fo with _ | fee
        · simp [processSingleImage, hr1, hv] at h3
        · by_cases hpos : fee > 0
          · by_cases hr2 : e3.running2
            · rcases hfind : e3.db.props.find?
                (fun p => p.documentId == deriveVisionDocId (stemOf img3))
                with _ | prop
              · simp [processSingleImage, hr1, hv, hpos, hr2, hfind] at h3
              · simp [processSingleImage, hr1, hv, hpos, hr2, hfind] at h3
            · simp [processSingleImage, hr1, hv, hpos, hr2]
          · simp [processSingleImage, hr1, hv, hpos] at h3
    · simp [processSingleImage, hr1]
    · rcases hv : e3.visionFee with e | fo
      · simp [processSingleImage, hr1, hv] at h3
      · rcases fo with _ | fee
        · simp [processSingleImage, hr1, hv] at h3
        · by_cases hpos : fee > 0
          · by_cases hr2 : e3.running2
            · rcases hfind : e3.db.props.find?
                (fun p => p.documentId == deriveVisionDocId (stemOf img3))
                with _ | prop
              · simp [processSingleImage, hr1, hv, hpos, hr2, hfind] at h3
              · simp [processSingleImage, hr1, hv, hpos, hr2, hfind] at h3
            · simp [processSingleImage, hr1, hv, hpos, hr2]
          · simp [processSingleImage, hr1, hv, hpos] at h3
    · simp [processSingleImage, hr1]

/-- A stored property row awaiting its registration fee. -/
def propD7 : PropertyDetail :=
  ⟨"D7", none, none, none, none, none, none, none, none, none, none, none,
   none⟩

/-- Resolver environment of a successful correction item. -/
def e1Vision : VisionEnv :=
  ⟨true, true, Except.ok (some 500), ⟨[], [propD7], [], []⟩⟩

/-- Resolver environment of a failing correction item (no fee found). -/
def e2Vision : VisionEnv :=
  ⟨true, true, Except.ok none, ⟨[], [], [], []⟩⟩

/-- Resolver environment of a stopped correction item. -/
def e3Vision : VisionEnv :=
  ⟨false, true, Except.ok (some 500), ⟨[], [], [], []⟩⟩

/-- Witness for C9 on three concrete correction inputs. -/
theorem c9_resolver_routing_witness :
    ((processSingleImage e1Vision "D7_table.png").effect
        = VisionFileEffect.deleted ∧
     (processSingleImage e1Vision "D7_table.png").result.documentId
       = some (deriveVisionDocId (stemOf "D7_table.png")) ∧
     (∃ fee, (processSingleImage e1Vision "D7_table.png").result.registrationFee
         = some fee ∧
       (processSingleImage e1Vision "D7_table.png").db.props
         = updateFirst
             (fun p => p.documentId == deriveVisionDocId (stemOf "D7_table.png"))
             (visionPropertyUpdate fee) e1Vision.db.props)) ∧
    ((∃ reason, (processSingleImage e2Vision "D8_page_1.png").effect
        = VisionFileEffect.movedFailed reason ∧
      (processSingleImage e2Vision "D8_page_1.png").result.error = some reason) ∧
     visionCountsFailed (processSingleImage e2Vision "D8_page_1.png").result
       = true) ∧
    ((processSingleImage e3Vision "D9_table.png").effect
        = VisionFileEffect.keptInPlace ∧
     (processSingleImage e3Vision "D9_table.png").db = e3Vision.db ∧
     visionCountsFailed (processSingleImage e3Vision "D9_table.png").result
       = false) :=
  c9_resolver_routing e1Vision e2Vision e3Vision
    "D7_table.png" "D8_page_1.png" "D9_table.png"
    (by decide) (by decide) (by decide)

/-- Claim C10: FileHandler.move_file is total over every filesystem
outcome - it returns the destination path when the move succeeds and
None when the filesystem operation raises, never propagating the
exception; and since process_stage2_llm discards the returned value, the
outcome of either move cannot change the already-determined terminal
status of the item. -/
theorem c10_move_file_total (source destinationDir : String)
    (filename : Option String) (e : String) (env : Stage2Env)
    (r1 : Stage1Result) (pf mf : Except String Unit) :
    moveFile source destinationDir filename (Except.ok ())
      = some (destinationDir ++ "/" ++ filename.getD source) ∧
    moveFile source destinationDir filename (Except.error e) = none ∧
    (processStage2Llm
        { env with moveProcessedFs := pf, moveFailedFs := mf } r1).result.status
      = (processStage2Llm env r1).result.status := by
  refine ⟨rfl, rfl, ?_⟩
  by_cases hr1 : env.running1
  · rcases hl : env.llm with le | od
    · simp [processStage2Llm, hr1, hl, stage2Failed]
    · rcases od with _ | d
      · simp [processStage2Llm, hr1, hl, stage2Failed]
      · by_cases hr2 : env.running2
        · by_cases hr3 : env.running3
          · rcases hc : env.dbCommit with ce | cu
            · simp [processStage2Llm, hr1, hl, hr2, hr3, hc, stage2Failed]
            · by_cases hr4 : env.running4
              · simp [processStage2Llm, hr1, hl, hr2, hr3, hc, hr4]
              · simp [processStage2Llm, hr1, hl, hr2, hr3, hc, hr4,
                  stage2Stopped]
          · simp [processStage2Llm, hr1, hl, hr2, hr3, stage2Stopped]
        · simp [processStage2Llm, hr1, hl, hr2, stage2Stopped]
  · simp [processStage2Llm, hr1, stage2Stopped]

end SaleDeed
